import Mathlib

/-
Verification of the fastapi-template repository.

Part 1 embeds `src/app/api/services/api_clients/base_service.py`
(`BaseService.make_request`) as a pure function returning both the
outcome of the call and the ordered list of log lines it emitted.
Part 2 embeds the SQLAlchemy schema of `src/app/models.py` as a
relational state together with insert/delete operations implementing
the declared unique, foreign-key and cascade-delete constraints.
-/

namespace FastapiTemplate

/-- Log severity of a `logger.<level>(...)` call. -/
inductive LogLevel where
  | info
  | error
deriving DecidableEq, Repr

/-- One emitted log line: its severity and its message text. -/
structure LogEntry where
  level : LogLevel
  message : String
deriving DecidableEq, Repr

/-- Number of error-level log lines in a log trace. -/
def errorCount (logs : List LogEntry) : Nat :=
  (logs.filter (fun e => e.level == LogLevel.error)).length

/-- One pydantic field of the request model: its declared name, its
optional alias, and its (already stringified) value. -/
structure ModelField where
  name : String
  aliasName : Option String
  value : String
deriving DecidableEq, Repr

/-- The key under which a field is dumped when `by_alias=True`:
the alias when one is declared, the field name otherwise. -/
def dumpKey (f : ModelField) : String :=
  match f.aliasName with
  | some a => a
  | none => f.name

/-- `request_data.model_dump(by_alias=True)`: the ordered key/value
pairs of the model, keys resolved through `dumpKey`. -/
def model_dump_by_alias (m : List ModelField) : List (String × String) :=
  m.map (fun f => (dumpKey f, f.value))

/-- The arguments `make_request` hands to `client.get`. -/
structure HttpRequest where
  url : String
  headers : List (String × String)
  params : List (String × String)
  timeout : Nat
deriving DecidableEq, Repr

/-- Result of `response.json()`: a decoded JSON document of type `J`,
or a decode failure carrying the exception message. -/
inductive JsonBody (J : Type) where
  | ok (json : J)
  | decodeError (msg : String)

/-- Outcome of `await client.get(...)`: a transport-level fault
(connection failure, timeout, ...) carrying the exception text, or an
HTTP response with status code, raw body content, and JSON body. -/
inductive GetOutcome (J : Type) where
  | transportError (msg : String)
  | response (status : Nat) (content : String) (body : JsonBody J)

/-- Outcome of `make_request` as seen by the caller.  `ok o` is a
normal return of `o` (the declared return annotation is
`ResponseType | None`, hence the `Option`); the other constructors are
the exceptions that propagate out of the function. -/
inductive MkResult (ρ : Type) where
  | ok (value : Option ρ)
  | httpStatusError (status : Nat) (content : String)
  | transportError (msg : String)
  | jsonDecodeError (msg : String)
  | parseError (msg : String)

/-- True iff the call raised (did not return normally). -/
def MkResult.isFailure {ρ : Type} : MkResult ρ → Bool
  | .ok _ => false
  | _ => true

/-- A concrete `BaseService[RequestType, ResponseType]` subclass:
its class name, the value of `get_endpoint()`, and the
`parse_response` hook, which either returns a `ρ` or raises (modelled
as `Except` with the exception message). -/
structure BaseService (J ρ : Type) where
  className : String
  get_endpoint : String
  parse_response : J → Except String ρ

/-- Textual rendering of the params dict interpolated into log
messages (abstracts the Python `f"{params}"` dict repr). -/
def dictRepr (ps : List (String × String)) : String :=
  "\x7b" ++ String.intercalate ", " (ps.map (fun p => p.1 ++ ": " ++ p.2)) ++ "\x7d"

/-- The HTTP request `make_request` builds before calling
`client.get`: `url = f"{base_url}{endpoint}"` (plain concatenation),
the bearer header, the alias-respecting dump of `request_data` as
query params, and the fixed 15 second timeout. -/
def buildRequest {J ρ : Type} (svc : BaseService J ρ) (request_data : List ModelField)
    (access_token base_url : String) : HttpRequest :=
  { url := base_url ++ svc.get_endpoint
  , headers := [("Authorization", "Bearer " ++ access_token)]
  , params := model_dump_by_alias request_data
  , timeout := 15 }

/-- `response.is_success` as used by `raise_for_status`:
`200 <= status_code < 300`. -/
def is2xx (status : Nat) : Bool := 200 ≤ status && status < 300

/-- The body of `make_request` after the GET has completed, given the
url and params it was issued with and the outcome of the GET.
Mirrors lines 56-85 of `base_service.py`: `raise_for_status` plus the
two except clauses, the success info log, `response.json()`, and the
guarded `parse_response` call. -/
def handleOutcome {J ρ : Type} (svc : BaseService J ρ) (url : String)
    (params : List (String × String)) (outcome : GetOutcome J) :
    MkResult ρ × List LogEntry :=
  match outcome with
  | .transportError msg =>
      (.transportError msg,
        [⟨.error, "An error occurred while making request to " ++ url ++ ": " ++ msg⟩])
  | .response status content body =>
      if is2xx status then
        let successLog : LogEntry :=
          ⟨.info, svc.className ++ " with params " ++ dictRepr params ++ " request successful"⟩
        match body with
        | .decodeError msg => (.jsonDecodeError msg, [successLog])
        | .ok j =>
            match svc.parse_response j with
            | .ok v => (.ok (some v), [successLog])
            | .error msg =>
                (.parseError msg,
                  [successLog,
                    ⟨.error, "An error occurred while parsing response from " ++ url
                      ++ " with params " ++ dictRepr params⟩])
      else
        (.httpStatusError status content,
          [⟨.error, "Error response " ++ toString status ++ " while making request to "
            ++ url ++ ". Response content: " ++ content⟩])

/-- `BaseService.make_request(request_data, access_token, base_url)`.
The transport is abstracted as `http : HttpRequest → GetOutcome J`;
the function returns the caller-visible outcome together with the
ordered log trace. -/
def make_request {J ρ : Type} (svc : BaseService J ρ) (request_data : List ModelField)
    (access_token base_url : String) (http : HttpRequest → GetOutcome J) :
    MkResult ρ × List LogEntry :=
  let req := buildRequest svc request_data access_token base_url
  handleOutcome svc req.url req.params (http req)

/-
Part 2: the SQLAlchemy schema of `src/app/models.py`.
Every model inherits `create_time`/`update_time` from `Base`
(server-assigned timestamps, here `Int` set to the insertion clock).
Rows are plain records over the declared columns; the database state
is one list per table; insert operations return `none` on a
constraint violation (the transaction fails, no row is added) and
delete operations implement the declared `ondelete="CASCADE"` rules.
-/

/-- Row of table `user_account` (class `User`). -/
structure UserRow where
  create_time : Int
  update_time : Int
  user_id : String
  email : String
  hashed_password : String
deriving DecidableEq, Repr

/-- Row of table `refresh_token` (class `RefreshToken`). -/
structure RefreshTokenRow where
  create_time : Int
  update_time : Int
  id : Int
  refresh_token : String
  used : Bool
  exp : Int
  user_id : String
deriving DecidableEq, Repr

/-- Row of table `role` (class `Role`). -/
structure RoleRow where
  create_time : Int
  update_time : Int
  role_id : String
  name : String
  description : String
deriving DecidableEq, Repr

/-- Row of table `user_role` (class `UserRole`). -/
structure UserRoleRow where
  create_time : Int
  update_time : Int
  id : Int
  user_id : String
  role_id : String
deriving DecidableEq, Repr

/-- Row of table `permission` (class `Permission`). -/
structure PermissionRow where
  create_time : Int
  update_time : Int
  permission_id : String
  name : String
  description : String
deriving DecidableEq, Repr

/-- Row of table `role_permission` (class `RolePermission`). -/
structure RolePermissionRow where
  create_time : Int
  update_time : Int
  id : Int
  role_id : String
  permission_id : String
deriving DecidableEq, Repr

/-- Row of table `audit_log` (class `AuditLog`). -/
structure AuditLogRow where
  create_time : Int
  update_time : Int
  log_id : String
  user_id : String
  action : String
  timestamp : Int
  description : String
deriving DecidableEq, Repr

/-- A database state: one list of rows per declared table. -/
structure DBState where
  user_account : List UserRow
  refresh_token : List RefreshTokenRow
  role : List RoleRow
  user_role : List UserRoleRow
  permission : List PermissionRow
  role_permission : List RolePermissionRow
  audit_log : List AuditLogRow
deriving DecidableEq, Repr

/-- The empty database. -/
def emptyDB : DBState :=
  { user_account := [], refresh_token := [], role := [], user_role := []
  , permission := [], role_permission := [], audit_log := [] }

/-- Insert into `user_account`.  Fails (`none`) when the primary key
`user_id` or the unique column `email` already exists. -/
def insertUser (s : DBState) (now : Int) (uid email pw : String) : Option DBState :=
  if s.user_account.any (fun r => r.user_id == uid) then none
  else if s.user_account.any (fun r => r.email == email) then none
  else some { s with user_account := s.user_account ++ [⟨now, now, uid, email, pw⟩] }

/-- Insert into `refresh_token`.  Fails when the primary key `id` or
the unique column `refresh_token` already exists, or when the foreign
key `user_id → user_account.user_id` has no parent row. -/
def insertRefreshToken (s : DBState) (now : Int) (tid : Int) (tok : String)
    (used : Bool) (texp : Int) (uid : String) : Option DBState :=
  if s.refresh_token.any (fun r => r.id == tid) then none
  else if s.refresh_token.any (fun r => r.refresh_token == tok) then none
  else if !(s.user_account.any (fun r => r.user_id == uid)) then none
  else some { s with refresh_token := s.refresh_token ++ [⟨now, now, tid, tok, used, texp, uid⟩] }

/-- Insert into `role`.  Fails when the primary key `role_id` or the
unique column `name` already exists. -/
def insertRole (s : DBState) (now : Int) (rid nm desc : String) : Option DBState :=
  if s.role.any (fun r => r.role_id == rid) then none
  else if s.role.any (fun r => r.name == nm) then none
  else some { s with role := s.role ++ [⟨now, now, rid, nm, desc⟩] }

/-- Insert into `permission`.  Fails when the primary key
`permission_id` or the unique column `name` already exists. -/
def insertPermission (s : DBState) (now : Int) (pid nm desc : String) : Option DBState :=
  if s.permission.any (fun r => r.permission_id == pid) then none
  else if s.permission.any (fun r => r.name == nm) then none
  else some { s with permission := s.permission ++ [⟨now, now, pid, nm, desc⟩] }

/-- Delete a `user_account` row.  Per the declared
`ondelete="CASCADE"` foreign keys, dependent rows of
`refresh_token`, `user_role` and `audit_log` are removed as well. -/
def deleteUser (s : DBState) (uid : String) : DBState :=
  { s with
    user_account := s.user_account.filter (fun r => r.user_id != uid)
    refresh_token := s.refresh_token.filter (fun r => r.user_id != uid)
    user_role := s.user_role.filter (fun r => r.user_id != uid)
    audit_log := s.audit_log.filter (fun r => r.user_id != uid) }

/-- Delete a `role` row.  Per the declared `ondelete="CASCADE"`
foreign keys, dependent rows of `user_role` and `role_permission` are
removed as well. -/
def deleteRole (s : DBState) (rid : String) : DBState :=
  { s with
    role := s.role.filter (fun r => r.role_id != rid)
    user_role := s.user_role.filter (fun r => r.role_id != rid)
    role_permission := s.role_permission.filter (fun r => r.role_id != rid) }

/-- Referential integrity: every child row references an existing
parent row through each of its declared foreign keys. -/
def refIntegrity (s : DBState) : Bool :=
  s.refresh_token.all (fun t => s.user_account.any (fun u => u.user_id == t.user_id)) &&
  s.user_role.all (fun j =>
    s.user_account.any (fun u => u.user_id == j.user_id) &&
    s.role.any (fun r => r.role_id == j.role_id)) &&
  s.role_permission.all (fun j =>
    s.role.any (fun r => r.role_id == j.role_id) &&
    s.permission.any (fun p => p.permission_id == j.permission_id)) &&
  s.audit_log.all (fun a => s.user_account.any (fun u => u.user_id == a.user_id))

/-
Declaration metadata of `models.py`, for the claim about
relationship back-references: per class, the declared mapped columns
(including the inherited timestamp columns) and the declared
`relationship(...)` attributes with their `back_populates` target.
-/

/-- A `relationship(back_populates=...)` declaration: the attribute
name it is bound to and the counterpart attribute it names. -/
structure RelationshipDecl where
  attr : String
  back_populates : String
deriving DecidableEq, Repr

/-- The attributes a model class declares: mapped columns and
relationship attributes. -/
structure ModelClass where
  tablename : String
  columns : List String
  relationships : List RelationshipDecl
deriving DecidableEq, Repr

/-- Whether the class declares an attribute with the given name,
either as a mapped column or as a relationship. -/
def declaresAttr (m : ModelClass) (a : String) : Bool :=
  m.columns.contains a || m.relationships.any (fun r => r.attr == a)

/-- Class `User` in `models.py`. -/
def UserClass : ModelClass :=
  { tablename := "user_account"
  , columns := ["create_time", "update_time", "user_id", "email", "hashed_password"]
  , relationships := [⟨"refresh_tokens", "user"⟩] }

/-- Class `RefreshToken` in `models.py`. -/
def RefreshTokenClass : ModelClass :=
  { tablename := "refresh_token"
  , columns := ["create_time", "update_time", "id", "refresh_token", "used", "exp", "user_id"]
  , relationships := [⟨"user", "refresh_tokens"⟩] }

/-- Class `Role` in `models.py`. -/
def RoleClass : ModelClass :=
  { tablename := "role"
  , columns := ["create_time", "update_time", "role_id", "name", "description"]
  , relationships := [] }

/-- Class `UserRole` in `models.py`. -/
def UserRoleClass : ModelClass :=
  { tablename := "user_role"
  , columns := ["create_time", "update_time", "id", "user_id", "role_id"]
  , relationships := [⟨"user", "roles"⟩, ⟨"role", "users"⟩] }

/-- Class `Permission` in `models.py`. -/
def PermissionClass : ModelClass :=
  { tablename := "permission"
  , columns := ["create_time", "update_time", "permission_id", "name", "description"]
  , relationships := [] }

/-- Class `RolePermission` in `models.py`. -/
def RolePermissionClass : ModelClass :=
  { tablename := "role_permission"
  , columns := ["create_time", "update_time", "id", "role_id", "permission_id"]
  , relationships := [⟨"role", "permissions"⟩, ⟨"permission", "roles"⟩] }

/-- Class `AuditLog` in `models.py`. -/
def AuditLogClass : ModelClass :=
  { tablename := "audit_log"
  , columns := ["create_time", "update_time", "log_id", "user_id", "action", "timestamp", "description"]
  , relationships := [] }

/-
Concrete fixtures used by the witness theorems.
-/

/-- A concrete `BaseService` subclass: endpoint `/v1/lookup`,
identity parser over `Nat` JSON documents. -/
def lookupService : BaseService Nat Nat :=
  { className := "LookupService"
  , get_endpoint := "/v1/lookup"
  , parse_response := fun j => Except.ok j }

/-- The same subclass with a `parse_response` hook that always
raises. -/
def failingParseService : BaseService Nat Nat :=
  { className := "LookupService"
  , get_endpoint := "/v1/lookup"
  , parse_response := fun _ => Except.error "validation failed" }

/-- A transport that always answers 200 with JSON document 7. -/
def httpOk : HttpRequest → GetOutcome Nat := fun _ => .response 200 "7" (.ok 7)

/-- A transport that always answers 404. -/
def http404 : HttpRequest → GetOutcome Nat := fun _ => .response 404 "not found" (.ok 0)

/-- A transport that always fails at the connection level. -/
def httpDown : HttpRequest → GetOutcome Nat := fun _ => .transportError "connection refused"

/-- A request model field named `user_name`, aliased to `username`. -/
def userNameField : ModelField :=
  { name := "user_name", aliasName := some "username", value := "alice" }

/-- The empty database after inserting one user. -/
def dbU : DBState :=
  { emptyDB with user_account := [⟨0, 0, "u1", "alice@example.com", "pw"⟩] }

/-- `dbU` after inserting a refresh token owned by that user. -/
def dbUT : DBState :=
  { dbU with refresh_token := [⟨0, 0, 1, "tok1", false, 100, "u1"⟩] }

/-- A database holding one user, one token, one role and one
permission, used to exercise the unique constraints. -/
def dupDB : DBState :=
  { user_account := [⟨0, 0, "u1", "alice@example.com", "pw"⟩]
  , refresh_token := [⟨0, 0, 1, "tok1", false, 100, "u1"⟩]
  , role := [⟨0, 0, "r1", "admin", "administrator"⟩]
  , user_role := []
  , permission := [⟨0, 0, "p1", "read", "read access"⟩]
  , role_permission := []
  , audit_log := [] }

/-
Theorems.
-/

/-- Projection helper: the url of the built request. -/
theorem buildRequest_url {J ρ : Type} (svc : BaseService J ρ) (rd : List ModelField)
    (tok burl : String) : (buildRequest svc rd tok burl).url = burl ++ svc.get_endpoint := rfl

/-- Projection helper: the params of the built request. -/
theorem buildRequest_params {J ρ : Type} (svc : BaseService J ρ) (rd : List ModelField)
    (tok burl : String) :
    (buildRequest svc rd tok burl).params = model_dump_by_alias rd := rfl

/-- C1: for every request_data, access_token, base_url and every
subclass parse_response, when the GET returns a 2xx response whose
JSON body is j and `parse_response j` returns v, `make_request`
returns exactly that v. -/
theorem c1_success_returns_parsed {J ρ : Type} (svc : BaseService J ρ)
    (rd : List ModelField) (tok burl : String) (http : HttpRequest → GetOutcome J)
    (status : Nat) (content : String) (j : J) (v : ρ)
    (hres : http (buildRequest svc rd tok burl) = .response status content (.ok j))
    (h2xx : is2xx status = true)
    (hp : svc.parse_response j = .ok v) :
    (make_request svc rd tok burl http).1 = .ok (some v) := by
  simp [make_request, handleOutcome, hres, h2xx, hp]

/-- C1 witness: a concrete 2xx run with JSON body 7 and the identity
parser returns `ok (some 7)`. -/
theorem c1_witness :
    httpOk (buildRequest lookupService [] "t" "https://api.example.com")
      = .response 200 "7" (.ok 7)
    ∧ is2xx 200 = true
    ∧ lookupService.parse_response 7 = .ok 7
    ∧ (make_request lookupService [] "t" "https://api.example.com" httpOk).1 = .ok (some 7) :=
  ⟨rfl, rfl, rfl,
    c1_success_returns_parsed lookupService [] "t" "https://api.example.com" httpOk
      200 "7" 7 7 rfl rfl rfl⟩

/-- C2: for every non-2xx response, `make_request` raises an
HTTPStatusError carrying the status code and the raw body, after a
log trace that is exactly one error-level line. -/
theorem c2_non2xx_raises_after_one_error_log {J ρ : Type} (svc : BaseService J ρ)
    (rd : List ModelField) (tok burl : String) (http : HttpRequest → GetOutcome J)
    (status : Nat) (content : String) (body : JsonBody J)
    (hres : http (buildRequest svc rd tok burl) = .response status content body)
    (hbad : is2xx status = false) :
    (make_request svc rd tok burl http).1 = .httpStatusError status content
    ∧ (make_request svc rd tok burl http).2 =
        [⟨.error, "Error response " ++ toString status ++ " while making request to "
          ++ (burl ++ svc.get_endpoint) ++ ". Response content: " ++ content⟩]
    ∧ errorCount (make_request svc rd tok burl http).2 = 1 := by
  simp [make_request, handleOutcome, hres, hbad, errorCount, buildRequest_url]

/-- C2 witness: a concrete 404 run raises with status 404 and body
"not found" after exactly one error log. -/
theorem c2_witness :
    http404 (buildRequest lookupService [] "t" "https://api.example.com")
      = .response 404 "not found" (.ok 0)
    ∧ is2xx 404 = false
    ∧ (make_request lookupService [] "t" "https://api.example.com" http404).1
        = .httpStatusError 404 "not found"
    ∧ errorCount (make_request lookupService [] "t" "https://api.example.com" http404).2 = 1 :=
  ⟨rfl, rfl,
    (c2_non2xx_raises_after_one_error_log lookupService [] "t" "https://api.example.com"
      http404 404 "not found" (.ok 0) rfl rfl).1,
    (c2_non2xx_raises_after_one_error_log lookupService [] "t" "https://api.example.com"
      http404 404 "not found" (.ok 0) rfl rfl).2.2⟩

/-- C3: when `parse_response` raises, `make_request` propagates that
same exception after exactly one error-level log line, and the text
of that line is built from the url and params only: it is identical
for every exception message, hence does not include it. -/
theorem c3_parse_error_propagated_logged_without_cause {J ρ : Type} (svc : BaseService J ρ)
    (rd : List ModelField) (tok burl : String) (http : HttpRequest → GetOutcome J)
    (status : Nat) (content : String) (j : J) (msg : String)
    (hres : http (buildRequest svc rd tok burl) = .response status content (.ok j))
    (h2xx : is2xx status = true)
    (hp : svc.parse_response j = .error msg) :
    (make_request svc rd tok burl http).1 = .parseError msg
    ∧ (make_request svc rd tok burl http).2 =
        [⟨.info, svc.className ++ " with params " ++ dictRepr (model_dump_by_alias rd)
            ++ " request successful"⟩,
         ⟨.error, "An error occurred while parsing response from " ++ (burl ++ svc.get_endpoint)
            ++ " with params " ++ dictRepr (model_dump_by_alias rd)⟩]
    ∧ errorCount (make_request svc rd tok burl http).2 = 1
    ∧ ∀ msg2 : String,
        (make_request ({ svc with parse_response :=
            fun _ => (Except.error msg2 : Except String ρ) } : BaseService J ρ)
          rd tok burl http).2
          = (make_request svc rd tok burl http).2 := by
  refine ⟨?_, ?_, ?_, ?_⟩
  · simp [make_request, handleOutcome, hres, h2xx, hp]
  · simp [make_request, handleOutcome, hres, h2xx, hp, buildRequest_url, buildRequest_params]
  · simp [make_request, handleOutcome, hres, h2xx, hp, errorCount]
  · intro msg2
    have hb : buildRequest ({ svc with parse_response :=
        fun _ => (Except.error msg2 : Except String ρ) } : BaseService J ρ) rd tok burl
        = buildRequest svc rd tok burl := rfl
    simp [make_request, handleOutcome, hb, hres, h2xx, hp, buildRequest_url, buildRequest_params]

/-- C3 witness: a concrete 2xx run whose parser raises propagates the
parse exception after exactly one error log. -/
theorem c3_witness :
    httpOk (buildRequest failingParseService [] "t" "https://api.example.com")
      = .response 200 "7" (.ok 7)
    ∧ is2xx 200 = true
    ∧ failingParseService.parse_response 7 = .error "validation failed"
    ∧ (make_request failingParseService [] "t" "https://api.example.com" httpOk).1
        = .parseError "validation failed"
    ∧ errorCount (make_request failingParseService [] "t" "https://api.example.com" httpOk).2 = 1 :=
  ⟨rfl, rfl, rfl,
    (c3_parse_error_propagated_logged_without_cause failingParseService [] "t"
      "https://api.example.com" httpOk 200 "7" 7 "validation failed" rfl rfl rfl).1,
    (c3_parse_error_propagated_logged_without_cause failingParseService [] "t"
      "https://api.example.com" httpOk 200 "7" 7 "validation failed" rfl rfl rfl).2.2.1⟩

/-- C4: every failing execution of `make_request` (HTTP status error,
transport fault, JSON decode failure or parse failure) surfaces the
failure to the caller only after at least one log side effect: its
log trace is non-empty.  Nothing is recovered locally. -/
theorem c4_failure_surfaced_after_log {J ρ : Type} (svc : BaseService J ρ)
    (rd : List ModelField) (tok burl : String) (http : HttpRequest → GetOutcome J)
    (_hfail : (make_request svc rd tok burl http).1.isFailure = true) :
    (make_request svc rd tok burl http).2 ≠ [] := by
  simp only [make_request]
  cases hh : http (buildRequest svc rd tok burl) with
  | transportError msg => simp [handleOutcome]
  | response status content body =>
      simp only [handleOutcome]
      by_cases h2 : is2xx status
      · simp only [h2, if_true]
        cases body with
        | decodeError m => simp
        | ok j => cases hp : svc.parse_response j <;> simp [hp]
      · simp [h2]

/-- C4 witness: a concrete transport failure is a failing run with a
non-empty log trace. -/
theorem c4_witness :
    (make_request lookupService [] "t" "https://api.example.com" httpDown).1.isFailure = true
    ∧ (make_request lookupService [] "t" "https://api.example.com" httpDown).2 ≠ [] :=
  ⟨rfl, c4_failure_surfaced_after_log lookupService [] "t" "https://api.example.com"
    httpDown rfl⟩

/-- C5: the query parameters sent by `make_request` are exactly the
alias-respecting flattening of request_data, and every field declared
with an alias is dumped under its alias (its dump key is the alias,
not the field name) and appears in the params under that alias. -/
theorem c5_params_are_alias_respecting_dump {J ρ : Type} (svc : BaseService J ρ)
    (rd : List ModelField) (tok burl : String) :
    (buildRequest svc rd tok burl).params = model_dump_by_alias rd
    ∧ ∀ f ∈ rd, ∀ a, f.aliasName = some a →
        dumpKey f = a ∧ (a, f.value) ∈ (buildRequest svc rd tok burl).params := by
  refine ⟨rfl, ?_⟩
  intro f hf a ha
  have hk : dumpKey f = a := by simp [dumpKey, ha]
  refine ⟨hk, ?_⟩
  simp only [buildRequest, model_dump_by_alias, List.mem_map]
  exact ⟨f, hf, by rw [hk]⟩

/-- C5 witness: the field `user_name` aliased to `username` appears
in the sent params as `username=alice`. -/
theorem c5_witness :
    (buildRequest lookupService [userNameField] "t" "b").params
      = model_dump_by_alias [userNameField]
    ∧ userNameField.aliasName = some "username"
    ∧ dumpKey userNameField = "username"
    ∧ ("username", "alice") ∈ (buildRequest lookupService [userNameField] "t" "b").params :=
  ⟨(c5_params_are_alias_respecting_dump lookupService [userNameField] "t" "b").1, rfl,
    ((c5_params_are_alias_respecting_dump lookupService [userNameField] "t" "b").2
      userNameField (List.mem_singleton.mpr rfl) "username" rfl).1,
    ((c5_params_are_alias_respecting_dump lookupService [userNameField] "t" "b").2
      userNameField (List.mem_singleton.mpr rfl) "username" rfl).2⟩

/-- C6: the target URL is the exact string concatenation of base_url
and the subclass endpoint, with no slash normalization; in particular
base_url https://api.example.com with endpoint /v1/lookup yields
exactly https://api.example.com/v1/lookup. -/
theorem c6_url_is_exact_concatenation :
    (∀ (J ρ : Type) (svc : BaseService J ρ) (rd : List ModelField) (tok burl : String),
      (buildRequest svc rd tok burl).url = burl ++ svc.get_endpoint)
    ∧ (buildRequest lookupService [] "t" "https://api.example.com").url
        = "https://api.example.com/v1/lookup" :=
  ⟨fun _ _ _ _ _ _ => rfl, rfl⟩

/-- C10: `make_request` never returns None: although its declared
return type is `ResponseType | None`, every normal return carries
some value, and that value is one produced by `parse_response`. -/
theorem c10_never_returns_none {J ρ : Type} (svc : BaseService J ρ)
    (rd : List ModelField) (tok burl : String) (http : HttpRequest → GetOutcome J) :
    (make_request svc rd tok burl http).1 ≠ .ok none
    ∧ ∀ o, (make_request svc rd tok burl http).1 = .ok o →
        ∃ j v, svc.parse_response j = .ok v ∧ o = some v := by
  simp only [make_request]
  cases hh : http (buildRequest svc rd tok burl) with
  | transportError msg => simp [handleOutcome]
  | response status content body =>
      simp only [handleOutcome]
      by_cases h2 : is2xx status
      · simp only [h2, if_true]
        cases body with
        | decodeError m => simp
        | ok j =>
            cases hp : svc.parse_response j with
            | ok v =>
                refine ⟨by simp [hp], ?_⟩
                intro o ho
                simp [hp] at ho
                exact ⟨j, v, hp, ho.symm⟩
            | error m => simp [hp]
      · simp [h2]

/-- C10 witness: on a concrete successful run the returned option is
some value produced by the parser, never none. -/
theorem c10_witness :
    (make_request lookupService [] "t" "b" httpOk).1 ≠ .ok none
    ∧ ∃ j v, lookupService.parse_response j = .ok v ∧ (some 7 : Option Nat) = some v :=
  ⟨(c10_never_returns_none lookupService [] "t" "b" httpOk).1,
    (c10_never_returns_none lookupService [] "t" "b" httpOk).2 (some 7) rfl⟩

/-- Helper: a parent row matched through a key survives a cascade
filter that removes a different key. -/
theorem any_key_filter {α : Type} (l : List α) (key : α → String) (k uid : String)
    (h : l.any (fun u => key u == k) = true) (hk : k ≠ uid) :
    (l.filter (fun u => key u != uid)).any (fun u => key u == k) = true := by
  rcases List.any_eq_true.mp h with ⟨u, hu, hup⟩
  have hke : key u = k := by simpa using hup
  refine List.any_eq_true.mpr ⟨u, ?_, hup⟩
  refine List.mem_filter.mpr ⟨hu, ?_⟩
  rw [hke]
  simpa [bne_iff_ne] using hk

/-- Helper: a row surviving a cascade filter has a key different from
the deleted one. -/
theorem key_ne_of_mem_filter {α : Type} (l : List α) (key : α → String) (uid : String)
    (r : α) (hr : r ∈ l.filter (fun u => key u != uid)) : r ∈ l ∧ key r ≠ uid := by
  rcases List.mem_filter.mp hr with ⟨h1, h2⟩
  exact ⟨h1, by simpa [bne_iff_ne] using h2⟩

/-- C7: inserting a User, then a RefreshToken referencing it, then
deleting the User leaves no row with the token primary key (cascade
delete); and deleting a User or a Role preserves referential
integrity: every surviving child row still references an existing
parent. -/
theorem c7_cascade_delete (s s1 s2 : DBState) (now1 now2 : Int)
    (uid em pw : String) (tid : Int) (tok : String) (us : Bool) (texp : Int)
    (_h1 : insertUser s now1 uid em pw = some s1)
    (h2 : insertRefreshToken s1 now2 tid tok us texp uid = some s2) :
    (deleteUser s2 uid).refresh_token.all (fun r => r.id != tid) = true
    ∧ (∀ s3 : DBState, ∀ uid3 : String,
        refIntegrity s3 = true → refIntegrity (deleteUser s3 uid3) = true)
    ∧ (∀ s4 : DBState, ∀ rid4 : String,
        refIntegrity s4 = true → refIntegrity (deleteRole s4 rid4) = true) := by
  refine ⟨?_, ?_, ?_⟩
  · -- round trip: extract the guard and shape facts from the insert
    have hfacts : s1.refresh_token.any (fun r => r.id == tid) = false ∧
        s2.refresh_token = s1.refresh_token ++ [⟨now2, now2, tid, tok, us, texp, uid⟩] := by
      simp only [insertRefreshToken] at h2
      split at h2
      · exact absurd h2 (by simp)
      · split at h2
        · exact absurd h2 (by simp)
        · split at h2
          · exact absurd h2 (by simp)
          · rw [Option.some.injEq] at h2
            constructor
            · rename_i hg _ _
              exact Bool.eq_false_iff.mpr hg
            · rw [← h2]
    rcases hfacts with ⟨hguard, hs2⟩
    simp only [deleteUser, List.all_eq_true]
    intro r hr
    rcases key_ne_of_mem_filter _ (fun t => t.user_id) uid r hr with ⟨hmem, hru⟩
    rw [hs2] at hmem
    rcases List.mem_append.mp hmem with hr1 | hr2
    · have hne : r.id ≠ tid := by
        intro he
        have : s1.refresh_token.any (fun t => t.id == tid) = true :=
          List.any_eq_true.mpr ⟨r, hr1, by simp [he]⟩
        rw [hguard] at this
        exact Bool.noConfusion this
      simpa [bne_iff_ne] using hne
    · rw [List.mem_singleton] at hr2
      subst hr2
      exact absurd rfl hru
  · -- deleteUser preserves referential integrity
    intro s3 uid3 hint
    simp only [refIntegrity, deleteUser, Bool.and_eq_true, List.all_eq_true] at hint ⊢
    obtain ⟨⟨⟨hrt, hur⟩, hrp⟩, hal⟩ := hint
    refine ⟨⟨⟨?_, ?_⟩, ?_⟩, ?_⟩
    · intro t ht
      rcases key_ne_of_mem_filter s3.refresh_token
        (fun t : RefreshTokenRow => t.user_id) uid3 t ht with ⟨hmem, hne⟩
      exact any_key_filter s3.user_account
        (fun u : UserRow => u.user_id) t.user_id uid3 (hrt t hmem) hne
    · intro j hj
      rcases key_ne_of_mem_filter s3.user_role
        (fun j : UserRoleRow => j.user_id) uid3 j hj with ⟨hmem, hne⟩
      rcases hur j hmem with ⟨hju, hjr⟩
      exact ⟨any_key_filter s3.user_account
        (fun u : UserRow => u.user_id) j.user_id uid3 hju hne, hjr⟩
    · intro j hj
      exact hrp j hj
    · intro a ha
      rcases key_ne_of_mem_filter s3.audit_log
        (fun a : AuditLogRow => a.user_id) uid3 a ha with ⟨hmem, hne⟩
      exact any_key_filter s3.user_account
        (fun u : UserRow => u.user_id) a.user_id uid3 (hal a hmem) hne
  · -- deleteRole preserves referential integrity
    intro s4 rid4 hint
    simp only [refIntegrity, deleteRole, Bool.and_eq_true, List.all_eq_true] at hint ⊢
    obtain ⟨⟨⟨hrt, hur⟩, hrp⟩, hal⟩ := hint
    refine ⟨⟨⟨?_, ?_⟩, ?_⟩, ?_⟩
    · intro t ht
      exact hrt t ht
    · intro j hj
      rcases key_ne_of_mem_filter s4.user_role
        (fun j : UserRoleRow => j.role_id) rid4 j hj with ⟨hmem, hne⟩
      rcases hur j hmem with ⟨hju, hjr⟩
      exact ⟨hju, any_key_filter s4.role
        (fun r : RoleRow => r.role_id) j.role_id rid4 hjr hne⟩
    · intro j hj
      rcases key_ne_of_mem_filter s4.role_permission
        (fun j : RolePermissionRow => j.role_id) rid4 j hj with ⟨hmem, hne⟩
      rcases hrp j hmem with ⟨hjr, hjp⟩
      exact ⟨any_key_filter s4.role
        (fun r : RoleRow => r.role_id) j.role_id rid4 hjr hne, hjp⟩
    · intro a ha
      exact hal a ha

/-- C7 witness: a concrete user/token round trip on the empty
database; after deleting the user no token row survives, and the
resulting state keeps referential integrity. -/
theorem c7_witness :
    insertUser emptyDB 0 "u1" "alice@example.com" "pw" = some dbU
    ∧ insertRefreshToken dbU 0 1 "tok1" false 100 "u1" = some dbUT
    ∧ (deleteUser dbUT "u1").refresh_token.all (fun r => r.id != 1) = true
    ∧ refIntegrity (deleteUser dbUT "u1") = true :=
  ⟨rfl, rfl,
    (c7_cascade_delete emptyDB dbU dbUT 0 0 "u1" "alice@example.com" "pw"
      1 "tok1" false 100 rfl rfl).1,
    (c7_cascade_delete emptyDB dbU dbUT 0 0 "u1" "alice@example.com" "pw"
      1 "tok1" false 100 rfl rfl).2.1 dbUT "u1" (by decide)⟩

/-- C8: inserting a second User with an existing email fails with a
constraint violation and adds no row (the insert returns none); the
same holds for a duplicate RefreshToken.refresh_token, Role.name and
Permission.name. -/
theorem c8_unique_constraints (s : DBState) (now : Int)
    (uid em pw : String) (tid : Int) (tok : String) (us : Bool) (texp : Int) (tuid : String)
    (rid rnm rdesc pid pnm pdesc : String)
    (hemail : s.user_account.any (fun r => r.email == em) = true)
    (htok : s.refresh_token.any (fun r => r.refresh_token == tok) = true)
    (hrole : s.role.any (fun r => r.name == rnm) = true)
    (hperm : s.permission.any (fun r => r.name == pnm) = true) :
    insertUser s now uid em pw = none
    ∧ insertRefreshToken s now tid tok us texp tuid = none
    ∧ insertRole s now rid rnm rdesc = none
    ∧ insertPermission s now pid pnm pdesc = none := by
  refine ⟨?_, ?_, ?_, ?_⟩
  · simp [insertUser, hemail]
  · simp [insertRefreshToken, htok]
  · simp [insertRole, hrole]
  · simp [insertPermission, hperm]

/-- C8 witness: on a concrete database each duplicate insert fails. -/
theorem c8_witness :
    dupDB.user_account.any (fun r => r.email == "alice@example.com") = true
    ∧ dupDB.refresh_token.any (fun r => r.refresh_token == "tok1") = true
    ∧ dupDB.role.any (fun r => r.name == "admin") = true
    ∧ dupDB.permission.any (fun r => r.name == "read") = true
    ∧ insertUser dupDB 1 "u2" "alice@example.com" "pw2" = none
    ∧ insertRefreshToken dupDB 1 2 "tok1" false 200 "u1" = none
    ∧ insertRole dupDB 1 "r2" "admin" "other" = none
    ∧ insertPermission dupDB 1 "p2" "read" "other" = none :=
  ⟨rfl, rfl, rfl, rfl,
    (c8_unique_constraints dupDB 1 "u2" "alice@example.com" "pw2" 2 "tok1" false 200 "u1"
      "r2" "admin" "other" "p2" "read" "other" rfl rfl rfl rfl).1,
    (c8_unique_constraints dupDB 1 "u2" "alice@example.com" "pw2" 2 "tok1" false 200 "u1"
      "r2" "admin" "other" "p2" "read" "other" rfl rfl rfl rfl).2.1,
    (c8_unique_constraints dupDB 1 "u2" "alice@example.com" "pw2" 2 "tok1" false 200 "u1"
      "r2" "admin" "other" "p2" "read" "other" rfl rfl rfl rfl).2.2.1,
    (c8_unique_constraints dupDB 1 "u2" "alice@example.com" "pw2" 2 "tok1" false 200 "u1"
      "r2" "admin" "other" "p2" "read" "other" rfl rfl rfl rfl).2.2.2⟩

/-- C9: the join classes declare back_populates targets roles, users,
permissions and roles, but no counterpart attribute (column or
relationship) named roles, users or permissions is declared on User,
Role or Permission, so the traversals user.roles, role.users,
role.permissions and permission.roles do not exist as attributes. -/
theorem c9_back_references_never_declared :
    RelationshipDecl.mk "user" "roles" ∈ UserRoleClass.relationships
    ∧ RelationshipDecl.mk "role" "users" ∈ UserRoleClass.relationships
    ∧ RelationshipDecl.mk "role" "permissions" ∈ RolePermissionClass.relationships
    ∧ RelationshipDecl.mk "permission" "roles" ∈ RolePermissionClass.relationships
    ∧ declaresAttr UserClass "roles" = false
    ∧ declaresAttr RoleClass "users" = false
    ∧ declaresAttr RoleClass "permissions" = false
    ∧ declaresAttr PermissionClass "roles" = false := by
  decide

end FastapiTemplate
